import Mathlib

/-!
Cast receiver event router (`cast_receiver_framework.js`).

A shallow embedding of the three callbacks the script registers with the
casting runtime (the LOAD message interceptor, the MEDIA_STATUS listener and
the custom message listener) together with the hide-overlay callback handed to
`setTimeout`, followed by theorems about them.

JavaScript values are modelled by `JSValue`; property reads that hit
`undefined` or `null` raise a `TypeError`, which is modelled by `Except`.
The two presentation targets (`mediaElement.src`, `overlay.textContent`,
`overlay.style.opacity`) record the value the script assigns to them. The
media element is a DOM element whose `src` is a string attribute: what the
element holds after an assignment is the string conversion of the assigned
value (`srcAttribute`). Resolving that attribute against the document's base
URL when `src` is read back is the browser's and is not modelled.
-/

namespace CastReceiver

/-! ## JavaScript values -/

/-- JavaScript values as far as the script handles them: `undefined`, `null`,
booleans, integer-valued numbers, strings and plain data objects (a list of
own properties, the first entry for a key being the visible one). -/
inductive JSValue where
  | undefined : JSValue
  | null : JSValue
  | bool (b : Bool) : JSValue
  | num (n : Int) : JSValue
  | str (s : String) : JSValue
  | obj (fields : List (String × JSValue)) : JSValue

/-- Errors a callback can raise: reading a property of `undefined` or `null`. -/
inductive JSError where
  | typeError : JSError
  deriving DecidableEq, Repr

/-- Own-property read on a plain object, `undefined` when the key is absent. -/
def getField (fields : List (String × JSValue)) (key : String) : JSValue :=
  (fields.lookup key).getD JSValue.undefined

/-- Own-property write on a plain object: the new entry shadows older ones. -/
def setField (fields : List (String × JSValue)) (key : String) (v : JSValue) :
    List (String × JSValue) :=
  (key, v) :: fields

/-- Property read `v.key`, for the keys the script reads (none of them is
defined on a primitive wrapper or on `Object.prototype`): a `TypeError` on
`undefined` and `null`, the own property on an object, `undefined` on the
other primitives. -/
def getProp (v : JSValue) (key : String) : Except JSError JSValue :=
  match v with
  | JSValue.undefined => Except.error JSError.typeError
  | JSValue.null => Except.error JSError.typeError
  | JSValue.obj fields => Except.ok (getField fields key)
  | _ => Except.ok JSValue.undefined

/-- Strict equality `v === 'literal'` against a string literal. -/
def strictEqString (v : JSValue) (literal : String) : Bool :=
  match v with
  | JSValue.str s => s == literal
  | _ => false

/-- String conversion applied by a template literal `${v}`; a plain object
prints as `[object Object]`. -/
def toJSString (v : JSValue) : String :=
  match v with
  | JSValue.undefined => "undefined"
  | JSValue.null => "null"
  | JSValue.bool true => "true"
  | JSValue.bool false => "false"
  | JSValue.num n => toString n
  | JSValue.str s => s
  | JSValue.obj _ => "[object Object]"

/-! ## State of the page -/

/-- The element `document.getElementById('media-element')`: the value last
assigned to its `src`. -/
structure MediaElement where
  src : JSValue

/-- The `src` attribute the media element holds: the DOM converts the value
assigned to `src` to a string, so a string identifier is kept as it is and
`undefined` becomes the text `undefined`. -/
def srcAttribute (m : MediaElement) : String :=
  toJSString m.src

/-- The element `document.getElementById('overlay')`: its `textContent` and
its `style.opacity`. -/
structure Overlay where
  textContent : String
  opacity : JSValue

/-- Callbacks the script hands to `setTimeout`; there is one, the arrow
function that hides the overlay. -/
inductive Callback where
  | hideOverlay : Callback
  deriving DecidableEq, Repr

/-- A pending `setTimeout` entry: the time (in milliseconds) at which it
fires and the callback to run. -/
structure Timer where
  due : Nat
  callback : Callback
  deriving DecidableEq, Repr

/-- Everything the callbacks read or write: the two elements, the console,
the pending timers and the current time in milliseconds. -/
structure World where
  mediaElement : MediaElement
  overlay : Overlay
  console : List (String × JSValue)
  timers : List Timer
  now : Nat

/-- What a callback leaves behind: the world after it ran (also when it
raised) and either the error it raised or the value it returned. -/
structure Outcome (α : Type) where
  world : World
  result : Except JSError α

/-- The call `console.log(label, v)`. -/
def consoleLog (w : World) (label : String) (v : JSValue) : World :=
  { w with console := w.console ++ [(label, v)] }

/-- The call `setTimeout(callback, delay)`: timers are never removed except by
firing. -/
def setTimeout (w : World) (callback : Callback) (delay : Nat) : World :=
  { w with timers := w.timers ++ [{ due := w.now + delay, callback := callback }] }

/-! ## The LOAD message interceptor -/

/-- The expression `loadRequest.media.key`. -/
def readMedia (loadRequest : JSValue) (key : String) : Except JSError JSValue :=
  match getProp loadRequest "media" with
  | Except.error e => Except.error e
  | Except.ok media => getProp media key

/-- Lines 13 to 17 of the interceptor: a new `MediaInformation` (whose
initial own properties `fresh` are set by the framework's constructor) gets
`contentId`, `contentType`, `metadata` and `streamType` copied from
`loadRequest.media`, in that order. -/
def buildMedia (fresh : List (String × JSValue)) (loadRequest : JSValue) :
    Except JSError (List (String × JSValue)) :=
  let media := fresh
  match readMedia loadRequest "contentId" with
  | Except.error e => Except.error e
  | Except.ok contentId =>
    let media := setField media "contentId" contentId
    match readMedia loadRequest "contentType" with
    | Except.error e => Except.error e
    | Except.ok contentType =>
      let media := setField media "contentType" contentType
      match readMedia loadRequest "metadata" with
      | Except.error e => Except.error e
      | Except.ok metadata =>
        let media := setField media "metadata" metadata
        match readMedia loadRequest "streamType" with
        | Except.error e => Except.error e
        | Except.ok streamType =>
          Except.ok (setField media "streamType" streamType)

/-- The callback registered with `setMessageInterceptor(MessageType.LOAD, …)`:
it logs the request, builds the local `media`, assigns `media.contentId` to
`mediaElement.src` and returns `loadRequest`. -/
def loadInterceptor (fresh : List (String × JSValue)) (w : World)
    (loadRequest : JSValue) : Outcome JSValue :=
  let w := consoleLog w "LOAD request received" loadRequest
  match buildMedia fresh loadRequest with
  | Except.error e => { world := w, result := Except.error e }
  | Except.ok media =>
    let w := { w with mediaElement := { src := getField media "contentId" } }
    { world := w, result := Except.ok loadRequest }

/-! ## The MEDIA_STATUS listener -/

/-- The callback registered for `EventType.MEDIA_STATUS`: a chain of strict
comparisons of `event.playerState` with four string literals. -/
def mediaStatusListener (w : World) (event : JSValue) : Outcome Unit :=
  let w := consoleLog w "Media Status:" event
  match getProp event "playerState" with
  | Except.error e => { world := w, result := Except.error e }
  | Except.ok playerState =>
    if strictEqString playerState "BUFFERING" then
      let w := { w with overlay := { w.overlay with textContent := "Buffering..." } }
      let w := { w with overlay := { w.overlay with opacity := JSValue.num 1 } }
      { world := w, result := Except.ok () }
    else if strictEqString playerState "PLAYING" then
      let w := { w with overlay := { w.overlay with opacity := JSValue.num 0 } }
      { world := w, result := Except.ok () }
    else if strictEqString playerState "PAUSED" then
      let w := { w with overlay := { w.overlay with textContent := "Paused" } }
      let w := { w with overlay := { w.overlay with opacity := JSValue.num 1 } }
      { world := w, result := Except.ok () }
    else if strictEqString playerState "IDLE" then
      let w := { w with overlay := { w.overlay with textContent := "Ready" } }
      let w := { w with overlay := { w.overlay with opacity := JSValue.num 1 } }
      { world := w, result := Except.ok () }
    else
      { world := w, result := Except.ok () }

/-! ## The custom message listener and its timer -/

/-- The delay passed to `setTimeout`, in milliseconds. -/
def hideDelay : Nat := 3000

/-- The expression `customEvent.data.message`. -/
def readMessage (customEvent : JSValue) : Except JSError JSValue :=
  match getProp customEvent "data" with
  | Except.error e => Except.error e
  | Except.ok data => getProp data "message"

/-- The callback registered for the namespace `urn:x-cast:com.example.custom`:
it shows the message and schedules the overlay to be hidden. -/
def customMessageListener (w : World) (customEvent : JSValue) : Outcome Unit :=
  let w := consoleLog w "Custom Message Received:" customEvent
  match readMessage customEvent with
  | Except.error e => { world := w, result := Except.error e }
  | Except.ok message =>
    let w := { w with overlay :=
      { w.overlay with textContent := "Custom Message: " ++ toJSString message } }
    let w := { w with overlay := { w.overlay with opacity := JSValue.num 1 } }
    let w := setTimeout w Callback.hideOverlay hideDelay
    { world := w, result := Except.ok () }

/-- Running a timer callback: `overlay.style.opacity = 0`. -/
def runCallback (w : World) (callback : Callback) : World :=
  match callback with
  | Callback.hideOverlay =>
    { w with overlay := { w.overlay with opacity := JSValue.num 0 } }

/-- Time passes by `dt` milliseconds with no host event: every pending timer
that has come due fires, in the order it was scheduled, and leaves the list of
timers; the others stay pending. -/
def elapse (w : World) (dt : Nat) : World :=
  let now := w.now + dt
  let due := w.timers.filter (fun t => decide (t.due ≤ now))
  let pending := w.timers.filter (fun t => !decide (t.due ≤ now))
  (due.map Timer.callback).foldl runCallback { w with now := now, timers := pending }

/-! ## Sequences of events -/

/-- What the host and the clock can do to the page. -/
inductive HostEvent where
  | load (loadRequest : JSValue) : HostEvent
  | mediaStatus (event : JSValue) : HostEvent
  | customMessage (customEvent : JSValue) : HostEvent
  | elapse (dt : Nat) : HostEvent

/-- One event; an error raised by a callback is dropped by the host and the
page stays as the callback left it. -/
def step (fresh : List (String × JSValue)) (w : World) (ev : HostEvent) : World :=
  match ev with
  | HostEvent.load loadRequest => (loadInterceptor fresh w loadRequest).world
  | HostEvent.mediaStatus event => (mediaStatusListener w event).world
  | HostEvent.customMessage customEvent => (customMessageListener w customEvent).world
  | HostEvent.elapse dt => elapse w dt

/-- A sequence of events, oldest first. -/
def run (fresh : List (String × JSValue)) (w : World) (evs : List HostEvent) : World :=
  evs.foldl (step fresh) w

/-- The overlay opacity is the number 0 or the number 1. -/
def OpacityBinary (w : World) : Prop :=
  w.overlay.opacity = JSValue.num 0 ∨ w.overlay.opacity = JSValue.num 1

/-! ## Sample inputs -/

/-- A page with an empty overlay, no source and nothing pending. -/
def blankWorld : World :=
  { mediaElement := { src := JSValue.str "" },
    overlay := { textContent := "", opacity := JSValue.num 0 },
    console := [], timers := [], now := 0 }

/-- The load request of the scenario in the specification. -/
def movieRequest : JSValue :=
  JSValue.obj [("requestId", JSValue.num 7),
    ("media", JSValue.obj [("contentId", JSValue.str "movie.mp4"),
      ("contentType", JSValue.str "video/mp4"),
      ("streamType", JSValue.str "BUFFERED"),
      ("metadata", JSValue.obj [("title", JSValue.str "X")])])]

/-- A load request whose media descriptor has no content identifier. -/
def noIdRequest : JSValue :=
  JSValue.obj [("media", JSValue.obj [("contentType", JSValue.str "video/mp4")])]

/-- A status event with the given player state. -/
def statusEvent (playerState : JSValue) : JSValue :=
  JSValue.obj [("playerState", playerState)]

/-- A custom message event carrying the given message. -/
def messageEvent (message : JSValue) : JSValue :=
  JSValue.obj [("data", JSValue.obj [("message", message)])]

/-! ## Auxiliary lemmas -/

theorem readMedia_ok_media {loadRequest : JSValue} {key : String} {v : JSValue}
    (h : readMedia loadRequest key = Except.ok v) :
    ∃ media, getProp loadRequest "media" = Except.ok media ∧
      media ≠ JSValue.undefined ∧ media ≠ JSValue.null := by
  unfold readMedia at h
  cases hm : getProp loadRequest "media" with
  | error e => rw [hm] at h; cases h
  | ok media =>
    rw [hm] at h
    refine ⟨media, rfl, ?_, ?_⟩ <;> intro hmedia <;> subst hmedia <;> cases h

theorem readMedia_total {loadRequest media : JSValue} (key : String)
    (hm : getProp loadRequest "media" = Except.ok media)
    (hu : media ≠ JSValue.undefined) (hn : media ≠ JSValue.null) :
    ∃ v, readMedia loadRequest key = Except.ok v := by
  unfold readMedia
  cases media <;> simp_all [getProp]

theorem getField_built (fresh : List (String × JSValue))
    (contentId contentType metadata streamType : JSValue) :
    getField (setField (setField (setField (setField fresh "contentId" contentId)
      "contentType" contentType) "metadata" metadata) "streamType" streamType) "contentId"
      = contentId := by
  simp [getField, setField, List.lookup]

theorem buildMedia_ok (fresh : List (String × JSValue)) {loadRequest contentId : JSValue}
    (h : readMedia loadRequest "contentId" = Except.ok contentId) :
    ∃ contentType metadata streamType,
      readMedia loadRequest "contentType" = Except.ok contentType ∧
      readMedia loadRequest "metadata" = Except.ok metadata ∧
      readMedia loadRequest "streamType" = Except.ok streamType ∧
      buildMedia fresh loadRequest = Except.ok
        (setField (setField (setField (setField fresh "contentId" contentId)
          "contentType" contentType) "metadata" metadata) "streamType" streamType) := by
  obtain ⟨media, hm, hu, hn⟩ := readMedia_ok_media h
  obtain ⟨contentType, h1⟩ := readMedia_total "contentType" hm hu hn
  obtain ⟨metadata, h2⟩ := readMedia_total "metadata" hm hu hn
  obtain ⟨streamType, h3⟩ := readMedia_total "streamType" hm hu hn
  refine ⟨contentType, metadata, streamType, h1, h2, h3, ?_⟩
  simp only [buildMedia, h, h1, h2, h3]

theorem loadInterceptor_ok (fresh : List (String × JSValue)) (w : World)
    {loadRequest contentId : JSValue}
    (h : readMedia loadRequest "contentId" = Except.ok contentId) :
    loadInterceptor fresh w loadRequest =
      { world := { consoleLog w "LOAD request received" loadRequest with
                   mediaElement := { src := contentId } },
        result := Except.ok loadRequest } := by
  obtain ⟨contentType, metadata, streamType, -, -, -, hb⟩ := buildMedia_ok fresh h
  simp only [loadInterceptor, hb, getField_built]

theorem loadInterceptor_overlay (fresh : List (String × JSValue)) (w : World)
    (loadRequest : JSValue) :
    (loadInterceptor fresh w loadRequest).world.overlay = w.overlay := by
  unfold loadInterceptor
  cases buildMedia fresh loadRequest <;> rfl

theorem getField_of_lookup_none {fields : List (String × JSValue)} {key : String}
    (h : fields.lookup key = none) : getField fields key = JSValue.undefined := by
  simp [getField, h]

/-! ## The LOAD message interceptor: theorems -/

/-- C1, as stated, fails: on the scenario's request the interceptor returns a
value whose own `contentId`, `contentType`, `streamType` and `metadata` are
all `undefined`, while those of the request's media descriptor are not. -/
theorem loadInterceptor_result_not_descriptor :
    ∃ v, (loadInterceptor [] blankWorld movieRequest).result = Except.ok v ∧
      getProp v "contentId" = Except.ok JSValue.undefined ∧
      getProp v "contentType" = Except.ok JSValue.undefined ∧
      getProp v "streamType" = Except.ok JSValue.undefined ∧
      getProp v "metadata" = Except.ok JSValue.undefined ∧
      readMedia movieRequest "contentId" = Except.ok (JSValue.str "movie.mp4") ∧
      getProp v "contentId" ≠ readMedia movieRequest "contentId" :=
  ⟨movieRequest, rfl, rfl, rfl, rfl, rfl, rfl, by
    intro h
    have h2 : Except.ok JSValue.undefined = Except.ok (JSValue.str "movie.mp4") := h
    cases h2⟩

/-- C1, amended: for every load request (a value whose media descriptor can
be read), the interceptor returns the load request itself; the four fields of
the returned request's media descriptor, and of the descriptor the interceptor
builds locally, are those of the request's media descriptor. -/
theorem loadInterceptor_returns_request_media (fresh : List (String × JSValue)) (w : World)
    (loadRequest contentId : JSValue)
    (h : readMedia loadRequest "contentId" = Except.ok contentId) :
    ∃ built, (loadInterceptor fresh w loadRequest).result = Except.ok loadRequest ∧
      buildMedia fresh loadRequest = Except.ok built ∧
      ∀ key ∈ ["contentId", "contentType", "streamType", "metadata"],
        Except.ok (getField built key) = readMedia loadRequest key := by
  obtain ⟨contentType, metadata, streamType, h1, h2, h3, hb⟩ := buildMedia_ok fresh h
  refine ⟨_, ?_, hb, ?_⟩
  · rw [loadInterceptor_ok fresh w h]
  · intro key hkey
    simp only [List.mem_cons, List.mem_singleton, List.not_mem_nil, or_false] at hkey
    rcases hkey with rfl | rfl | rfl | rfl
    · rw [h]; simp [getField, setField, List.lookup]
    · rw [h1]; simp [getField, setField, List.lookup]
    · rw [h3]; simp [getField, setField, List.lookup]
    · rw [h2]; simp [getField, setField, List.lookup]

theorem loadInterceptor_returns_request_media_witness :
    readMedia movieRequest "contentId" = Except.ok (JSValue.str "movie.mp4") ∧
    (loadInterceptor [] blankWorld movieRequest).result = Except.ok movieRequest :=
  ⟨rfl, (loadInterceptor_returns_request_media [] blankWorld movieRequest
    (JSValue.str "movie.mp4") rfl).elim (fun _ h => h.1)⟩

/-- C2: for every load request whose media content identifier is `contentId`
and every prior state, after the interceptor has run `mediaElement.src` is
`contentId`. -/
theorem loadInterceptor_sets_src (fresh : List (String × JSValue)) (w : World)
    (loadRequest contentId : JSValue)
    (h : readMedia loadRequest "contentId" = Except.ok contentId) :
    (loadInterceptor fresh w loadRequest).world.mediaElement.src = contentId := by
  rw [loadInterceptor_ok fresh w h]

theorem loadInterceptor_sets_src_witness :
    readMedia movieRequest "contentId" = Except.ok (JSValue.str "movie.mp4") ∧
    (loadInterceptor [] blankWorld movieRequest).world.mediaElement.src
      = JSValue.str "movie.mp4" :=
  ⟨rfl, loadInterceptor_sets_src [] blankWorld movieRequest (JSValue.str "movie.mp4") rfl⟩

/-- C8, as stated, fails: on a request whose media descriptor has no
`contentId`, starting from a page whose `src` attribute is the empty string,
the interceptor returns normally and leaves the `src` attribute equal to the
text `undefined`, which is not the empty string. -/
theorem loadInterceptor_absent_id_not_empty :
    srcAttribute blankWorld.mediaElement = "" ∧
    (loadInterceptor [] blankWorld noIdRequest).result = Except.ok noIdRequest ∧
    srcAttribute (loadInterceptor [] blankWorld noIdRequest).world.mediaElement
      = "undefined" ∧
    srcAttribute (loadInterceptor [] blankWorld noIdRequest).world.mediaElement ≠ "" :=
  ⟨rfl, rfl, rfl, by
    intro h
    have h2 : "undefined" = "" := h
    exact absurd h2 (by decide)⟩

/-- C8, amended: for every load request whose media descriptor is an object
without a `contentId`, the interceptor raises no error (it returns the
request) and leaves the media element's `src` attribute equal to the text
`undefined`, the absent identifier converted to a string, whatever the source
was before; that is not the empty string. -/
theorem loadInterceptor_absent_id (fresh : List (String × JSValue)) (w : World)
    (loadRequest : JSValue) (mediaFields : List (String × JSValue))
    (hm : getProp loadRequest "media" = Except.ok (JSValue.obj mediaFields))
    (hid : mediaFields.lookup "contentId" = none) :
    (loadInterceptor fresh w loadRequest).result = Except.ok loadRequest ∧
    srcAttribute (loadInterceptor fresh w loadRequest).world.mediaElement = "undefined" ∧
    srcAttribute (loadInterceptor fresh w loadRequest).world.mediaElement ≠ "" := by
  have h : readMedia loadRequest "contentId" = Except.ok JSValue.undefined := by
    unfold readMedia
    rw [hm]
    simp only [getProp, getField_of_lookup_none hid]
  rw [loadInterceptor_ok fresh w h]
  refine ⟨rfl, rfl, ?_⟩
  intro hempty
  have h2 : "undefined" = "" := hempty
  exact absurd h2 (by decide)

theorem loadInterceptor_absent_id_witness :
    getProp noIdRequest "media"
      = Except.ok (JSValue.obj [("contentType", JSValue.str "video/mp4")]) ∧
    List.lookup "contentId" [("contentType", JSValue.str "video/mp4")] = none ∧
    (loadInterceptor [] { blankWorld with mediaElement := { src := JSValue.str "old.mp4" } }
        noIdRequest).result = Except.ok noIdRequest ∧
    srcAttribute (loadInterceptor []
        { blankWorld with mediaElement := { src := JSValue.str "old.mp4" } }
        noIdRequest).world.mediaElement = "undefined" ∧
    srcAttribute (loadInterceptor []
        { blankWorld with mediaElement := { src := JSValue.str "old.mp4" } }
        noIdRequest).world.mediaElement ≠ "" :=
  ⟨rfl, rfl, loadInterceptor_absent_id [] _ noIdRequest
    [("contentType", JSValue.str "video/mp4")] rfl rfl⟩

/-- C10: for every load request (a value whose media descriptor can be read)
the interceptor returns the request itself, so every property of the returned
value is that of the request, whatever the locally built `MediaInformation`
started from; the overlay keeps its text and opacity. -/
theorem loadInterceptor_returns_input (fresh : List (String × JSValue)) (w : World)
    (loadRequest contentId : JSValue)
    (h : readMedia loadRequest "contentId" = Except.ok contentId) :
    (loadInterceptor fresh w loadRequest).result = Except.ok loadRequest ∧
    (∀ v, (loadInterceptor fresh w loadRequest).result = Except.ok v →
      ∀ key, getProp v key = getProp loadRequest key) ∧
    (loadInterceptor fresh w loadRequest).world.overlay.textContent = w.overlay.textContent ∧
    (loadInterceptor fresh w loadRequest).world.overlay.opacity = w.overlay.opacity := by
  refine ⟨?_, ?_, ?_, ?_⟩
  · rw [loadInterceptor_ok fresh w h]
  · intro v hv key
    rw [loadInterceptor_ok fresh w h] at hv
    cases hv
    rfl
  · rw [loadInterceptor_overlay]
  · rw [loadInterceptor_overlay]

theorem loadInterceptor_returns_input_witness :
    readMedia movieRequest "contentId" = Except.ok (JSValue.str "movie.mp4") ∧
    (loadInterceptor [] blankWorld movieRequest).result = Except.ok movieRequest ∧
    getProp movieRequest "requestId" = Except.ok (JSValue.num 7) :=
  ⟨rfl, (loadInterceptor_returns_input [] blankWorld movieRequest
    (JSValue.str "movie.mp4") rfl).1, rfl⟩

/-! ## The MEDIA_STATUS listener: theorems -/

theorem strictEqString_str (s literal : String) :
    strictEqString (JSValue.str s) literal = decide (s = literal) := rfl

theorem strictEqString_of_ne {v : JSValue} {literal : String}
    (h : v ≠ JSValue.str literal) : strictEqString v literal = false := by
  cases v <;> simp_all [strictEqString]

/-- C3: for every prior state, the status listener called with player state
`BUFFERING`, `PAUSED` or `IDLE` leaves the overlay with the text
`Buffering...`, `Paused` or `Ready` respectively and opacity 1, whatever the
overlay held before, and raises no error. -/
theorem mediaStatusListener_shows (w : World) (event : JSValue) (state label : String)
    (hstate : getProp event "playerState" = Except.ok (JSValue.str state))
    (hlabel : (state, label) ∈
      [("BUFFERING", "Buffering..."), ("PAUSED", "Paused"), ("IDLE", "Ready")]) :
    (mediaStatusListener w event).world.overlay
      = { textContent := label, opacity := JSValue.num 1 } ∧
    (mediaStatusListener w event).result = Except.ok () := by
  simp only [List.mem_cons, List.mem_singleton, List.not_mem_nil, or_false,
    Prod.mk.injEq] at hlabel
  rcases hlabel with ⟨rfl, rfl⟩ | ⟨rfl, rfl⟩ | ⟨rfl, rfl⟩ <;>
    simp [mediaStatusListener, hstate, strictEqString_str, consoleLog]

theorem mediaStatusListener_shows_witness :
    ((mediaStatusListener
        { blankWorld with overlay := { textContent := "Paused", opacity := JSValue.num 0 } }
        (statusEvent (JSValue.str "BUFFERING"))).world.overlay
      = { textContent := "Buffering...", opacity := JSValue.num 1 }) ∧
    ((mediaStatusListener blankWorld (statusEvent (JSValue.str "PAUSED"))).world.overlay
      = { textContent := "Paused", opacity := JSValue.num 1 }) ∧
    ((mediaStatusListener blankWorld (statusEvent (JSValue.str "IDLE"))).world.overlay
      = { textContent := "Ready", opacity := JSValue.num 1 }) :=
  ⟨(mediaStatusListener_shows _ (statusEvent (JSValue.str "BUFFERING")) "BUFFERING"
      "Buffering..." rfl (by simp)).1,
   (mediaStatusListener_shows blankWorld (statusEvent (JSValue.str "PAUSED")) "PAUSED"
      "Paused" rfl (by simp)).1,
   (mediaStatusListener_shows blankWorld (statusEvent (JSValue.str "IDLE")) "IDLE"
      "Ready" rfl (by simp)).1⟩

/-- C4: for every prior state, the status listener called with player state
`PLAYING` leaves the overlay with opacity 0 and the text it had before. -/
theorem mediaStatusListener_playing (w : World) (event : JSValue)
    (hstate : getProp event "playerState" = Except.ok (JSValue.str "PLAYING")) :
    (mediaStatusListener w event).world.overlay.opacity = JSValue.num 0 ∧
    (mediaStatusListener w event).world.overlay.textContent = w.overlay.textContent := by
  simp [mediaStatusListener, hstate, strictEqString_str, consoleLog]

theorem mediaStatusListener_playing_witness :
    getProp (statusEvent (JSValue.str "PLAYING")) "playerState"
      = Except.ok (JSValue.str "PLAYING") ∧
    (mediaStatusListener
        { blankWorld with overlay := { textContent := "Paused", opacity := JSValue.num 1 } }
        (statusEvent (JSValue.str "PLAYING"))).world.overlay.opacity = JSValue.num 0 ∧
    (mediaStatusListener
        { blankWorld with overlay := { textContent := "Paused", opacity := JSValue.num 1 } }
        (statusEvent (JSValue.str "PLAYING"))).world.overlay.textContent = "Paused" :=
  ⟨rfl, mediaStatusListener_playing _ (statusEvent (JSValue.str "PLAYING")) rfl⟩

/-- C5: for every player-state value other than the strings `BUFFERING`,
`PLAYING`, `PAUSED` and `IDLE`, and every prior state, the status listener
leaves the overlay (text and opacity) as it was and raises no error. -/
theorem mediaStatusListener_unrecognized (w : World) (event playerState : JSValue)
    (hstate : getProp event "playerState" = Except.ok playerState)
    (hb : playerState ≠ JSValue.str "BUFFERING") (hp : playerState ≠ JSValue.str "PLAYING")
    (ha : playerState ≠ JSValue.str "PAUSED") (hi : playerState ≠ JSValue.str "IDLE") :
    (mediaStatusListener w event).world.overlay = w.overlay ∧
    (mediaStatusListener w event).result = Except.ok () := by
  simp [mediaStatusListener, hstate, strictEqString_of_ne hb, strictEqString_of_ne hp,
    strictEqString_of_ne ha, strictEqString_of_ne hi, consoleLog]

theorem mediaStatusListener_unrecognized_witness :
    (mediaStatusListener
        { blankWorld with overlay := { textContent := "Paused", opacity := JSValue.num 1 } }
        (statusEvent (JSValue.str "LOADING"))).world.overlay
      = { textContent := "Paused", opacity := JSValue.num 1 } ∧
    (mediaStatusListener
        { blankWorld with overlay := { textContent := "Paused", opacity := JSValue.num 1 } }
        (statusEvent (JSValue.str "LOADING"))).result = Except.ok () :=
  mediaStatusListener_unrecognized _ (statusEvent (JSValue.str "LOADING"))
    (JSValue.str "LOADING") rfl (by simp) (by simp) (by simp) (by simp)

/-! ## The custom message listener and the hide timer: theorems -/

theorem foldl_runCallback_textContent (callbacks : List Callback) (w : World) :
    (callbacks.foldl runCallback w).overlay.textContent = w.overlay.textContent := by
  induction callbacks generalizing w with
  | nil => rfl
  | cons c rest ih => cases c; rw [List.foldl_cons, ih]; rfl

theorem foldl_runCallback_opacity (callbacks : List Callback) (w : World)
    (h : callbacks ≠ []) :
    (callbacks.foldl runCallback w).overlay.opacity = JSValue.num 0 := by
  induction callbacks generalizing w with
  | nil => exact absurd rfl h
  | cons c rest ih =>
    cases c
    rw [List.foldl_cons]
    cases rest with
    | nil => rfl
    | cons c2 rest2 => exact ih _ (List.cons_ne_nil _ _)

theorem foldl_runCallback_timers (callbacks : List Callback) (w : World) :
    (callbacks.foldl runCallback w).timers = w.timers ∧
    (callbacks.foldl runCallback w).now = w.now := by
  induction callbacks generalizing w with
  | nil => exact ⟨rfl, rfl⟩
  | cons c rest ih => cases c; rw [List.foldl_cons]; exact ih _

theorem elapse_textContent (w : World) (dt : Nat) :
    (elapse w dt).overlay.textContent = w.overlay.textContent := by
  unfold elapse
  exact foldl_runCallback_textContent _ _

theorem elapse_opacity_of_due (w : World) (dt : Nat) (t : Timer)
    (hmem : t ∈ w.timers) (hdue : t.due ≤ w.now + dt) :
    (elapse w dt).overlay.opacity = JSValue.num 0 := by
  unfold elapse
  apply foldl_runCallback_opacity
  intro hnil
  have hin : t ∈ w.timers.filter (fun t => decide (t.due ≤ w.now + dt)) :=
    List.mem_filter.mpr ⟨hmem, by simpa using hdue⟩
  have hmap : t.callback ∈ (w.timers.filter (fun t => decide (t.due ≤ w.now + dt))).map
      Timer.callback := List.mem_map_of_mem _ hin
  rw [hnil] at hmap
  cases hmap

theorem elapse_overlay_of_none_due (w : World) (dt : Nat)
    (h : ∀ t ∈ w.timers, w.now + dt < t.due) : (elapse w dt).overlay = w.overlay := by
  unfold elapse
  have hnil : w.timers.filter (fun t => decide (t.due ≤ w.now + dt)) = [] := by
    rw [List.filter_eq_nil_iff]
    intro t ht
    have := h t ht
    simp only [decide_eq_true_eq]
    omega
  simp only [hnil, List.map_nil, List.foldl_nil]

theorem elapse_timers (w : World) (dt : Nat) :
    (elapse w dt).timers = w.timers.filter (fun t => !decide (t.due ≤ w.now + dt)) ∧
    (elapse w dt).now = w.now + dt := by
  unfold elapse
  exact foldl_runCallback_timers _ _

theorem customMessageListener_ok (w : World) {customEvent message : JSValue}
    (h : readMessage customEvent = Except.ok message) :
    customMessageListener w customEvent =
      { world :=
          { mediaElement := w.mediaElement,
            overlay := { textContent := "Custom Message: " ++ toJSString message,
                         opacity := JSValue.num 1 },
            console := w.console ++ [("Custom Message Received:", customEvent)],
            timers := w.timers ++ [{ due := w.now + hideDelay, callback := Callback.hideOverlay }],
            now := w.now },
        result := Except.ok () } := by
  simp only [customMessageListener, h, consoleLog, setTimeout]

/-- C6: for every message string `m` and every prior state, the custom message
listener called with payload message `m` leaves the overlay with the text
`Custom Message: ` followed by `m` and opacity 1; once the delay (or more) has
elapsed with no other event, the opacity is 0 and the text is the same; and
when no timer was pending before the call, the overlay stays as shown for any
shorter time. -/
theorem customMessageListener_shows_then_hides (w : World) (customEvent : JSValue)
    (m : String) (dt : Nat)
    (hmsg : readMessage customEvent = Except.ok (JSValue.str m))
    (hdt : hideDelay ≤ dt) :
    (customMessageListener w customEvent).world.overlay
      = { textContent := "Custom Message: " ++ m, opacity := JSValue.num 1 } ∧
    (elapse (customMessageListener w customEvent).world dt).overlay
      = { textContent := "Custom Message: " ++ m, opacity := JSValue.num 0 } ∧
    (w.timers = [] → ∀ early, early < hideDelay →
      (elapse (customMessageListener w customEvent).world early).overlay
        = { textContent := "Custom Message: " ++ m, opacity := JSValue.num 1 }) := by
  rw [customMessageListener_ok w hmsg]
  refine ⟨rfl, ?_, ?_⟩
  · have htext := elapse_textContent
      { mediaElement := w.mediaElement,
        overlay := { textContent := "Custom Message: " ++ toJSString (JSValue.str m),
                     opacity := JSValue.num 1 },
        console := w.console ++ [("Custom Message Received:", customEvent)],
        timers := w.timers ++ [{ due := w.now + hideDelay, callback := Callback.hideOverlay }],
        now := w.now } dt
    have hop := elapse_opacity_of_due
      { mediaElement := w.mediaElement,
        overlay := { textContent := "Custom Message: " ++ toJSString (JSValue.str m),
                     opacity := JSValue.num 1 },
        console := w.console ++ [("Custom Message Received:", customEvent)],
        timers := w.timers ++ [{ due := w.now + hideDelay, callback := Callback.hideOverlay }],
        now := w.now } dt { due := w.now + hideDelay, callback := Callback.hideOverlay }
      (by simp) (by simp only; omega)
    generalize elapse _ dt = w2 at htext hop
    cases w2 with
    | mk me ov co ti no =>
      cases ov with
      | mk text op =>
        simp only at htext hop
        subst htext hop
        rfl
  · intro hnone early hearly
    rw [elapse_overlay_of_none_due]
    · rfl
    · intro t ht
      simp only [hnone, List.nil_append, List.mem_singleton] at ht
      subst ht
      simp only
      omega

theorem customMessageListener_shows_then_hides_witness :
    (customMessageListener blankWorld (messageEvent (JSValue.str "hi"))).world.overlay
      = { textContent := "Custom Message: " ++ "hi", opacity := JSValue.num 1 } ∧
    (elapse (customMessageListener blankWorld (messageEvent (JSValue.str "hi"))).world
        3000).overlay
      = { textContent := "Custom Message: " ++ "hi", opacity := JSValue.num 0 } :=
  ⟨(customMessageListener_shows_then_hides blankWorld (messageEvent (JSValue.str "hi")) "hi"
      3000 rfl (by decide)).1,
   (customMessageListener_shows_then_hides blankWorld (messageEvent (JSValue.str "hi")) "hi"
      3000 rfl (by decide)).2.1⟩

theorem elapse_of_none_due (w : World) (dt : Nat)
    (h : ∀ t ∈ w.timers, w.now + dt < t.due) : elapse w dt = { w with now := w.now + dt } := by
  unfold elapse
  have hnil : w.timers.filter (fun t => decide (t.due ≤ w.now + dt)) = [] := by
    rw [List.filter_eq_nil_iff]
    intro t ht
    have := h t ht
    simp only [decide_eq_true_eq]
    omega
  have hall : w.timers.filter (fun t => !decide (t.due ≤ w.now + dt)) = w.timers := by
    rw [List.filter_eq_self]
    intro t ht
    have := h t ht
    simp only [Bool.not_eq_eq_eq_not, Bool.not_true, decide_eq_false_iff_not]
    omega
  simp only [hnil, hall, List.map_nil, List.foldl_nil]

/-- C7: pending hide timers are never cancelled. Starting with nothing
pending, let a custom message `m1` arrive, then `d` milliseconds later
(`0 < d`, before the first timer fires) a custom message `m2`. Just after `m2`
the overlay shows `m2` with opacity 1 and both timers are pending; when the
first timer fires, at `hideDelay` after `m1`, the opacity is 0 while the text is
that of `m2`, whose own timer is still pending and not yet due. -/
theorem hide_timer_not_cancelled (fresh : List (String × JSValue)) (w : World)
    (e1 e2 : JSValue) (m1 m2 : String) (d : Nat)
    (hnone : w.timers = [])
    (h1 : readMessage e1 = Except.ok (JSValue.str m1))
    (h2 : readMessage e2 = Except.ok (JSValue.str m2))
    (hpos : 0 < d) (hlt : d < hideDelay) :
    (run fresh w [HostEvent.customMessage e1, HostEvent.elapse d,
        HostEvent.customMessage e2]).overlay
      = { textContent := "Custom Message: " ++ m2, opacity := JSValue.num 1 } ∧
    (run fresh w [HostEvent.customMessage e1, HostEvent.elapse d,
        HostEvent.customMessage e2]).timers
      = [{ due := w.now + hideDelay, callback := Callback.hideOverlay },
         { due := w.now + d + hideDelay, callback := Callback.hideOverlay }] ∧
    (run fresh w [HostEvent.customMessage e1, HostEvent.elapse d,
        HostEvent.customMessage e2, HostEvent.elapse (hideDelay - d)]).overlay
      = { textContent := "Custom Message: " ++ m2, opacity := JSValue.num 0 } ∧
    (run fresh w [HostEvent.customMessage e1, HostEvent.elapse d,
        HostEvent.customMessage e2, HostEvent.elapse (hideDelay - d)]).now
      = w.now + hideDelay ∧
    (run fresh w [HostEvent.customMessage e1, HostEvent.elapse d,
        HostEvent.customMessage e2, HostEvent.elapse (hideDelay - d)]).timers
      = [{ due := w.now + d + hideDelay, callback := Callback.hideOverlay }] ∧
    w.now + hideDelay < w.now + d + hideDelay := by
  have hstep1 : elapse (customMessageListener w e1).world d
      = { (customMessageListener w e1).world with now := w.now + d } := by
    rw [elapse_of_none_due]
    · rw [customMessageListener_ok w h1]
    · intro t ht
      rw [customMessageListener_ok w h1] at ht ⊢
      simp only [hnone, List.nil_append, List.mem_singleton] at ht
      subst ht
      simp only
      omega
  have hle : w.now + hideDelay ≤ w.now + hideDelay := Nat.le_refl _
  have hnle : ¬ (w.now + d + hideDelay ≤ w.now + hideDelay) := by omega
  have hnow : w.now + d + (hideDelay - d) = w.now + hideDelay := by omega
  simp only [run, List.foldl_cons, List.foldl_nil, step, hstep1]
  rw [customMessageListener_ok _ h2, customMessageListener_ok w h1]
  simp only [hnone, List.nil_append, List.singleton_append, toJSString, elapse,
    List.filter_cons, List.filter_nil, hle, hnle, decide_True, decide_False, Bool.not_true,
    Bool.not_false, if_true, if_false, List.map_cons, List.map_nil, List.foldl_cons,
    List.foldl_nil, runCallback, hnow, true_and, Bool.false_eq_true]
  omega

theorem hide_timer_not_cancelled_witness :
    (run [] blankWorld [HostEvent.customMessage (messageEvent (JSValue.str "one")),
        HostEvent.elapse 1000,
        HostEvent.customMessage (messageEvent (JSValue.str "two")),
        HostEvent.elapse (hideDelay - 1000)]).overlay
      = { textContent := "Custom Message: " ++ "two", opacity := JSValue.num 0 } ∧
    (run [] blankWorld [HostEvent.customMessage (messageEvent (JSValue.str "one")),
        HostEvent.elapse 1000,
        HostEvent.customMessage (messageEvent (JSValue.str "two")),
        HostEvent.elapse (hideDelay - 1000)]).now = 3000 ∧
    (run [] blankWorld [HostEvent.customMessage (messageEvent (JSValue.str "one")),
        HostEvent.elapse 1000,
        HostEvent.customMessage (messageEvent (JSValue.str "two")),
        HostEvent.elapse (hideDelay - 1000)]).timers
      = [{ due := 4000, callback := Callback.hideOverlay }] :=
  ⟨(hide_timer_not_cancelled [] blankWorld (messageEvent (JSValue.str "one"))
      (messageEvent (JSValue.str "two")) "one" "two" 1000 rfl rfl rfl
      (by decide) (by decide)).2.2.1,
   (hide_timer_not_cancelled [] blankWorld (messageEvent (JSValue.str "one"))
      (messageEvent (JSValue.str "two")) "one" "two" 1000 rfl rfl rfl
      (by decide) (by decide)).2.2.2.1,
   (hide_timer_not_cancelled [] blankWorld (messageEvent (JSValue.str "one"))
      (messageEvent (JSValue.str "two")) "one" "two" 1000 rfl rfl rfl
      (by decide) (by decide)).2.2.2.2.1⟩

/-! ## The opacity invariant -/

theorem mediaStatusListener_opacityBinary (w : World) (event : JSValue)
    (h : OpacityBinary w) : OpacityBinary (mediaStatusListener w event).world := by
  unfold mediaStatusListener
  cases getProp event "playerState" with
  | error e => exact h
  | ok playerState =>
    simp only
    split_ifs
    · exact Or.inr rfl
    · exact Or.inl rfl
    · exact Or.inr rfl
    · exact Or.inr rfl
    · exact h

theorem customMessageListener_opacityBinary (w : World) (customEvent : JSValue)
    (h : OpacityBinary w) : OpacityBinary (customMessageListener w customEvent).world := by
  cases hm : readMessage customEvent with
  | error e =>
    unfold customMessageListener
    rw [hm]
    exact h
  | ok message =>
    rw [customMessageListener_ok w hm]
    exact Or.inr rfl

theorem elapse_opacityBinary (w : World) (dt : Nat) (h : OpacityBinary w) :
    OpacityBinary (elapse w dt) := by
  unfold elapse
  by_cases hdue : (w.timers.filter (fun t => decide (t.due ≤ w.now + dt))).map Timer.callback = []
  · simp only [hdue, List.foldl_nil]
    exact h
  · exact Or.inl (foldl_runCallback_opacity _ _ hdue)

theorem step_opacityBinary (fresh : List (String × JSValue)) (w : World) (ev : HostEvent)
    (h : OpacityBinary w) : OpacityBinary (step fresh w ev) := by
  cases ev with
  | load loadRequest =>
    unfold OpacityBinary step
    rw [loadInterceptor_overlay]
    exact h
  | mediaStatus event => exact mediaStatusListener_opacityBinary w event h
  | customMessage customEvent => exact customMessageListener_opacityBinary w customEvent h
  | elapse dt => exact elapse_opacityBinary w dt h

/-- C9: starting from an overlay whose opacity is 0 or 1, every sequence of
load interceptions, status events and custom messages (with any value as
argument, also one on which the callback raises) and of hide-timer firings
leaves the opacity equal to 0 or 1. -/
theorem run_opacity_zero_or_one (fresh : List (String × JSValue)) (w : World)
    (events : List HostEvent)
    (h : w.overlay.opacity = JSValue.num 0 ∨ w.overlay.opacity = JSValue.num 1) :
    (run fresh w events).overlay.opacity = JSValue.num 0 ∨
    (run fresh w events).overlay.opacity = JSValue.num 1 := by
  induction events generalizing w with
  | nil => exact h
  | cons ev rest ih =>
    unfold run
    rw [List.foldl_cons]
    exact ih _ (step_opacityBinary fresh w ev h)

theorem run_opacity_zero_or_one_witness :
    (blankWorld.overlay.opacity = JSValue.num 0 ∨ blankWorld.overlay.opacity = JSValue.num 1) ∧
    ((run [] blankWorld [HostEvent.mediaStatus (statusEvent (JSValue.str "PAUSED")),
        HostEvent.customMessage JSValue.undefined, HostEvent.load movieRequest,
        HostEvent.customMessage (messageEvent (JSValue.str "hi")),
        HostEvent.elapse 3000]).overlay.opacity = JSValue.num 0 ∨
     (run [] blankWorld [HostEvent.mediaStatus (statusEvent (JSValue.str "PAUSED")),
        HostEvent.customMessage JSValue.undefined, HostEvent.load movieRequest,
        HostEvent.customMessage (messageEvent (JSValue.str "hi")),
        HostEvent.elapse 3000]).overlay.opacity = JSValue.num 1) :=
  ⟨Or.inl rfl, run_opacity_zero_or_one [] blankWorld _ (Or.inl rfl)⟩

end CastReceiver
